import Mathlib

/-!
# FormDex coordinate-transform pipeline: a shallow embedding

This file embeds the geometry-relevant parts of the FormDex pipeline in Lean 4
and proves properties of the embedded definitions.

* `clamp`, `pdf_rect_to_yolo` — from `src/shared/utils.py`.  `pdf_rect_to_yolo`
  returns the (class id, cx, cy, w, h) content of the YOLO label line it
  formats; Python's `float` division raises `ZeroDivisionError` on a zero
  divisor, modelled here by returning `none`.  The `.6f` formatting of each
  floating field is modelled by `round6`.
* `flip_horizontal`, `resize_scan_fax` — from
  `src/.agents/skills/augment/scripts/run.py`.  Label lines are lists of
  whitespace-split tokens; a token is `Tok.num v` when Python's `float()`
  parses it to the value `v` and `Tok.junk` when `float()` raises
  `ValueError`.  Uncaught Python exceptions are modelled with `Except Unit`.
* `pad_checkbox`, `render_label_line`, `render_label_lines` — the label-building
  part of `render_and_label` in
  `src/.agents/skills/collect/scripts/collect_form.py`.
-/

namespace FormDex

/-- `clamp` from `src/shared/utils.py`: `max(low, min(value, high))`. -/
def clamp (value low high : ℚ) : ℚ := max low (min value high)

/-- Python `f"{x:.6f}"` formatting of a (rational-valued) float: rounding to
six digits after the decimal point. -/
def round6 (q : ℚ) : ℚ := (round (q * 1000000) : ℚ) / 1000000

/-- Python `int()` on a float: truncation toward zero. -/
def pyInt (q : ℚ) : ℤ := if 0 ≤ q then ⌊q⌋ else ⌈q⌉

/-- `pdf_rect_to_yolo` from `src/shared/utils.py`.  The Python function returns
the string `f"{class_id} {cx:.6f} {cy:.6f} {w:.6f} {h:.6f}"`; we return the
numeric content of that line.  A zero `page_width`/`page_height` makes the
`scale_x`/`scale_y` divisions raise `ZeroDivisionError`, and a zero
`img_width`/`img_height` makes the normalisation divisions raise; both are
modelled as `none`.  No other dimension validation exists in the source. -/
def pdf_rect_to_yolo (field_x0 field_y0 field_x1 field_y1 page_width page_height : ℚ)
    (img_width img_height : ℤ) (class_id : ℕ) : Option (ℕ × ℚ × ℚ × ℚ × ℚ) :=
  if page_width = 0 ∨ page_height = 0 then none else
  let scale_x : ℚ := img_width / page_width
  let scale_y : ℚ := img_height / page_height
  let img_x0 := field_x0 * scale_x
  let img_y0 := field_y0 * scale_y
  let img_x1 := field_x1 * scale_x
  let img_y1 := field_y1 * scale_y
  if img_width = 0 ∨ img_height = 0 then none else
  some (class_id,
    round6 (clamp (((img_x0 + img_x1) / 2) / img_width) 0 1),
    round6 (clamp (((img_y0 + img_y1) / 2) / img_height) 0 1),
    round6 (clamp (|img_x1 - img_x0| / img_width) 0 1),
    round6 (clamp (|img_y1 - img_y0| / img_height) 0 1))

/-- A whitespace-split token of a label line.  `num v` is a token Python's
`float()` parses to the value `v`; `junk` is a token on which `float()`
raises `ValueError`. -/
inductive Tok where
  | num (val : ℚ)
  | junk
deriving DecidableEq

/-- Python `float()` applied to a token: the value, or a raised `ValueError`. -/
def pyFloat : Tok → Except Unit ℚ
  | .num v => Except.ok v
  | .junk => Except.error ()

/-- A parsed-and-re-encoded label-line record `"{cls} {cx:.6f} {cy:.6f} {w:.6f} {h:.6f}"`.
The class token is carried through unparsed (`parts[0]` in the source). -/
structure Box where
  cls : Tok
  cx : ℚ
  cy : ℚ
  w : ℚ
  h : ℚ
deriving DecidableEq

/-- The loop body of `flip_horizontal` in
`src/.agents/skills/augment/scripts/run.py` (lines 40–46) for one label line:
lines without exactly 5 tokens are skipped (`none`); otherwise the four
numeric tokens are `float()`ed — an unparseable one raises (`Except.error`) —
and the mirrored box `1 - cx` is re-encoded at 6 decimal places. -/
def flip_line (line : List Tok) : Except Unit (Option Box) :=
  match line with
  | [cls, t1, t2, t3, t4] =>
    match pyFloat t1, pyFloat t2, pyFloat t3, pyFloat t4 with
    | Except.ok cx, Except.ok cy, Except.ok w, Except.ok h =>
      Except.ok (some ⟨cls, round6 (1 - cx), round6 cy, round6 w, round6 h⟩)
    | _, _, _, _ => Except.error ()
  | _ => Except.ok none

/-- The label loop of `flip_horizontal` over a whole label file.  A raised
`ValueError` on any line aborts the whole call. -/
def flip_horizontal : List (List Tok) → Except Unit (List Box)
  | [] => Except.ok []
  | line :: rest =>
    match flip_line line with
    | Except.error e => Except.error e
    | Except.ok none => flip_horizontal rest
    | Except.ok (some b) =>
      match flip_horizontal rest with
      | Except.error e => Except.error e
      | Except.ok bs => Except.ok (b :: bs)

/-- The per-box content of the flip: mirror `cx`, re-encode every numeric
field at 6 decimal places. -/
def flip_box (b : Box) : Box :=
  ⟨b.cls, round6 (1 - b.cx), round6 b.cy, round6 b.w, round6 b.h⟩

/-- Encode a box back into the 5-token label line the codec writes for it. -/
def box_to_line (b : Box) : List Tok :=
  [b.cls, .num b.cx, .num b.cy, .num b.w, .num b.h]

/-- A rational exactly representable with 6 digits after the decimal point —
the form every numeric field read back from a persisted label line has. -/
def Rep6 (q : ℚ) : Prop := ∃ k : ℤ, q = (k : ℚ) / 1000000

/-- The geometry computed by `resize_scan_fax` in
`src/.agents/skills/augment/scripts/run.py`: the fixed-size output canvas
(`Image.new("RGB", (w, h), ...)`), the resized dimensions, the centering
offsets, and the transformed label boxes. -/
structure ScanFaxResult where
  out_w : ℕ
  out_h : ℕ
  new_w : ℤ
  new_h : ℤ
  paste_x : ℤ
  paste_y : ℤ
  boxes : List Box
deriving DecidableEq

/-- The transformed, still-unclamped normalized center coordinate of a box
under the scan/fax transform (source lines 194/200/206):
`px_cx = cx * w`, then `px_cx * scale * jitter + paste`, then `/ w`. -/
def scan_fax_raw_c (w : ℕ) (scale jitter : ℚ) (paste : ℤ) (c : ℚ) : ℚ :=
  (c * w * scale * jitter + paste) / w

/-- The transformed, still-unclamped normalized size of a box under the
scan/fax transform (source lines 196/202/208). -/
def scan_fax_raw_size (w : ℕ) (scale jitter : ℚ) (s : ℚ) : ℚ :=
  s * w * scale * jitter / w

/-- The per-box body of the `resize_scan_fax` label loop (source lines
193–223): transform center/size, clamp each value into [0.001, 0.999], drop
the box when the *clamped* extent lies outside the 0.02/0.98 visibility
window, otherwise emit the box re-encoded at 6 decimal places.  A zero canvas
dimension makes the `px / w` divisions raise `ZeroDivisionError`
(`Except.error`). -/
def scan_fax_box (w h : ℕ) (scale ajx ajy : ℚ) (paste_x paste_y : ℤ)
    (cls : Tok) (cx cy bw bh : ℚ) : Except Unit (Option Box) :=
  if (w : ℚ) = 0 ∨ (h : ℚ) = 0 then Except.error () else
  let new_cx := max (1/1000) (min (999/1000) (scan_fax_raw_c w scale ajx paste_x cx))
  let new_cy := max (1/1000) (min (999/1000) (scan_fax_raw_c h scale ajy paste_y cy))
  let new_bw := max (1/1000) (min (999/1000) (scan_fax_raw_size w scale ajx bw))
  let new_bh := max (1/1000) (min (999/1000) (scan_fax_raw_size h scale ajy bh))
  if new_cx - new_bw / 2 > 98/100 ∨ new_cx + new_bw / 2 < 2/100 then Except.ok none
  else if new_cy - new_bh / 2 > 98/100 ∨ new_cy + new_bh / 2 < 2/100 then Except.ok none
  else Except.ok (some ⟨cls, round6 new_cx, round6 new_cy, round6 new_bw, round6 new_bh⟩)

/-- One iteration of the `resize_scan_fax` label loop: skip lines without
exactly 5 tokens, `float()` the numeric tokens (an unparseable one raises),
then run the per-box transform. -/
def scan_fax_line (w h : ℕ) (scale ajx ajy : ℚ) (paste_x paste_y : ℤ)
    (line : List Tok) : Except Unit (Option Box) :=
  match line with
  | [cls, t1, t2, t3, t4] =>
    match pyFloat t1, pyFloat t2, pyFloat t3, pyFloat t4 with
    | Except.ok cx, Except.ok cy, Except.ok bw, Except.ok bh =>
      scan_fax_box w h scale ajx ajy paste_x paste_y cls cx cy bw bh
    | _, _, _, _ => Except.error ()
  | _ => Except.ok none

/-- The `resize_scan_fax` label loop over a whole label file. -/
def scan_fax_lines (w h : ℕ) (scale ajx ajy : ℚ) (paste_x paste_y : ℤ) :
    List (List Tok) → Except Unit (List Box)
  | [] => Except.ok []
  | line :: rest =>
    match scan_fax_line w h scale ajx ajy paste_x paste_y line with
    | Except.error e => Except.error e
    | Except.ok none => scan_fax_lines w h scale ajx ajy paste_x paste_y rest
    | Except.ok (some b) =>
      match scan_fax_lines w h scale ajx ajy paste_x paste_y rest with
      | Except.error e => Except.error e
      | Except.ok bs => Except.ok (b :: bs)

/-- `resize_scan_fax` from `src/.agents/skills/augment/scripts/run.py` for an
original canvas of size `w × h` and the sampled parameters `scale`,
`aspect_jitter_x`, `aspect_jitter_y`:
`new_w = max(64, int(w * scale * aspect_jitter_x))` (Python `int()` truncates),
`paste_x = (w - new_w) // 2` (Python floor division), and the output canvas is
`Image.new("RGB", (w, h), white)` — exactly the original dimensions. -/
def resize_scan_fax (w h : ℕ) (scale aspect_jitter_x aspect_jitter_y : ℚ)
    (label_lines : List (List Tok)) : Except Unit ScanFaxResult :=
  let new_w : ℤ := max 64 (pyInt ((w : ℚ) * scale * aspect_jitter_x))
  let new_h : ℤ := max 64 (pyInt ((h : ℚ) * scale * aspect_jitter_y))
  let paste_x : ℤ := Int.fdiv ((w : ℤ) - new_w) 2
  let paste_y : ℤ := Int.fdiv ((h : ℤ) - new_h) 2
  match scan_fax_lines w h scale aspect_jitter_x aspect_jitter_y paste_x paste_y label_lines with
  | Except.error e => Except.error e
  | Except.ok boxes => Except.ok ⟨w, h, new_w, new_h, paste_x, paste_y, boxes⟩

/-- `CHECKBOX_PAD_FACTOR` from `src/.agents/skills/collect/scripts/collect_form.py`. -/
def CHECKBOX_PAD_FACTOR : ℚ := 1

/-- One entry of the per-page field list consumed by `render_and_label`:
class name, class id, and the widget rectangle in document points. -/
structure Field where
  class_name : String
  class_id : ℕ
  x0 : ℚ
  y0 : ℚ
  x1 : ℚ
  y1 : ℚ

/-- The checkbox padding block of `render_and_label` (source lines 308–316),
with the pad factor as a parameter (the source fixes it to
`CHECKBOX_PAD_FACTOR`): expand each side by `size * pad_factor`, clamped to
the page bounds `[0, page_width] × [0, page_height]`. -/
def pad_checkbox (page_width page_height pad_factor x0 y0 x1 y1 : ℚ) : ℚ × ℚ × ℚ × ℚ :=
  let w_pt := x1 - x0
  let h_pt := y1 - y0
  let pad_x := w_pt * pad_factor
  let pad_y := h_pt * pad_factor
  (max 0 (x0 - pad_x), max 0 (y0 - pad_y),
    min page_width (x1 + pad_x), min page_height (y1 + pad_y))

/-- The per-field body of the label-building loop in `render_and_label`
(source lines 300–329): pad checkbox rectangles, then map through
`pdf_rect_to_yolo`; the line is appended unconditionally. -/
def render_label_line (page_width page_height : ℚ) (img_w img_h : ℤ) (f : Field) :
    Except Unit (ℕ × ℚ × ℚ × ℚ × ℚ) :=
  let r :=
    if f.class_name = "checkbox" then
      pad_checkbox page_width page_height CHECKBOX_PAD_FACTOR f.x0 f.y0 f.x1 f.y1
    else (f.x0, f.y0, f.x1, f.y1)
  match pdf_rect_to_yolo r.1 r.2.1 r.2.2.1 r.2.2.2 page_width page_height img_w img_h
      f.class_id with
  | some line => Except.ok line
  | none => Except.error ()

/-- The label-building loop of `render_and_label` over the whole field list of
a page: one YOLO line per field, in field order. -/
def render_label_lines (page_width page_height : ℚ) (img_w img_h : ℤ) :
    List Field → Except Unit (List (ℕ × ℚ × ℚ × ℚ × ℚ))
  | [] => Except.ok []
  | f :: rest =>
    match render_label_line page_width page_height img_w img_h f with
    | Except.error e => Except.error e
    | Except.ok line =>
      match render_label_lines page_width page_height img_w img_h rest with
      | Except.error e => Except.error e
      | Except.ok lines => Except.ok (line :: lines)

/-- C1: the concrete mapping scenario: pageSize (612, 792), imgSize (1700, 2200),
rect (100, 700, 200, 720), class id 3 — output cx ≈ 0.245098, cy ≈ 0.896463,
w ≈ 0.163399, h ≈ 0.025253, each within 1e-4. -/
theorem C1_concrete_mapping_scenario :
    ∃ cx cy w h : ℚ,
      pdf_rect_to_yolo 100 700 200 720 612 792 1700 2200 3 = some (3, cx, cy, w, h) ∧
      |cx - 245098/1000000| ≤ 1/10000 ∧ |cy - 896463/1000000| ≤ 1/10000 ∧
      |w - 163399/1000000| ≤ 1/10000 ∧ |h - 25253/1000000| ≤ 1/10000 := by
  refine ⟨245098/1000000, 896465/1000000, 163399/1000000, 25253/1000000, ?_, ?_, ?_, ?_, ?_⟩
  · unfold pdf_rect_to_yolo clamp round6
    norm_num [round_eq, abs]
  all_goals rw [abs_le]; constructor <;> norm_num

theorem round6_zero : round6 0 = 0 := by
  unfold round6
  norm_num

theorem round6_one : round6 1 = 1 := by
  unfold round6
  norm_num [round_eq]

theorem round6_mono {a b : ℚ} (h : a ≤ b) : round6 a ≤ round6 b := by
  unfold round6
  have hr : round (a * 1000000) ≤ round (b * 1000000) := by
    rw [round_eq, round_eq]
    exact Int.floor_mono (by linarith)
  have hc : ((round (a * 1000000) : ℤ) : ℚ) ≤ ((round (b * 1000000) : ℤ) : ℚ) :=
    Int.cast_le.mpr hr
  linarith

theorem le_clamp (v low high : ℚ) : low ≤ clamp v low high := le_max_left _ _

theorem clamp_le {low high : ℚ} (v : ℚ) (h : low ≤ high) : clamp v low high ≤ high :=
  max_le h (min_le_right _ _)

theorem round6_clamp01_nonneg (v : ℚ) : 0 ≤ round6 (clamp v 0 1) := by
  have := round6_mono (le_clamp v 0 1)
  rwa [round6_zero] at this

theorem round6_clamp01_le_one (v : ℚ) : round6 (clamp v 0 1) ≤ 1 := by
  have := round6_mono (@clamp_le 0 1 v (by norm_num))
  rwa [round6_one] at this

/-- C2: for strictly positive page and image dimensions and an arbitrary input
rectangle (degenerate ones included), the mapper returns a box with
cx, cy, w, h all in [0, 1], and repeated calls with identical input return
identical output. -/
theorem C2_mapper_determinism_and_bounds
    (fx0 fy0 fx1 fy1 pw ph : ℚ) (iw ih : ℤ) (cid : ℕ)
    (hpw : 0 < pw) (hph : 0 < ph) (hiw : 0 < iw) (hih : 0 < ih) :
    ∃ cx cy w h : ℚ,
      pdf_rect_to_yolo fx0 fy0 fx1 fy1 pw ph iw ih cid = some (cid, cx, cy, w, h) ∧
      (0 ≤ cx ∧ cx ≤ 1) ∧ (0 ≤ cy ∧ cy ≤ 1) ∧ (0 ≤ w ∧ w ≤ 1) ∧ (0 ≤ h ∧ h ≤ 1) ∧
      pdf_rect_to_yolo fx0 fy0 fx1 fy1 pw ph iw ih cid =
        pdf_rect_to_yolo fx0 fy0 fx1 fy1 pw ph iw ih cid := by
  have h1 : ¬(pw = 0 ∨ ph = 0) := by
    push_neg
    exact ⟨ne_of_gt hpw, ne_of_gt hph⟩
  have h2 : ¬(iw = 0 ∨ ih = 0) := by
    push_neg
    exact ⟨ne_of_gt hiw, ne_of_gt hih⟩
  unfold pdf_rect_to_yolo
  rw [if_neg h1]
  simp only [if_neg h2]
  exact ⟨_, _, _, _, rfl,
    ⟨round6_clamp01_nonneg _, round6_clamp01_le_one _⟩,
    ⟨round6_clamp01_nonneg _, round6_clamp01_le_one _⟩,
    ⟨round6_clamp01_nonneg _, round6_clamp01_le_one _⟩,
    ⟨round6_clamp01_nonneg _, round6_clamp01_le_one _⟩, by trivial⟩

/-- C2 witness: the bounds theorem instantiated at the concrete Letter-page
scenario. -/
theorem C2_mapper_determinism_and_bounds_witness :
    ∃ cx cy w h : ℚ,
      pdf_rect_to_yolo 100 700 200 720 612 792 1700 2200 3 = some (3, cx, cy, w, h) ∧
      (0 ≤ cx ∧ cx ≤ 1) ∧ (0 ≤ cy ∧ cy ≤ 1) ∧ (0 ≤ w ∧ w ≤ 1) ∧ (0 ≤ h ∧ h ≤ 1) ∧
      pdf_rect_to_yolo 100 700 200 720 612 792 1700 2200 3 =
        pdf_rect_to_yolo 100 700 200 720 612 792 1700 2200 3 :=
  C2_mapper_determinism_and_bounds 100 700 200 720 612 792 1700 2200 3
    (by norm_num) (by norm_num) (by norm_num) (by norm_num)

/-- C3 counterexample: a call with a *negative* page width does not fail at
all — the source performs no dimension validation, so the division simply
goes through with a negative scale factor and the call returns a label line.
This refutes "every call with a zero or negative dimension fails". -/
theorem C3_counterexample_negative_dims_succeed :
    (pdf_rect_to_yolo 100 700 200 720 (-612) 792 1700 2200 7).isSome = true := by
  unfold pdf_rect_to_yolo
  norm_num

/-- C3 (amended): the mapper has no `InvalidDimensions` check.  A zero page or
image dimension makes a division raise an uncaught `ZeroDivisionError`
(modelled: `none`) — an error that propagates out of the mapping call rather
than being a local `InvalidDimensions` failure — while negative dimensions are
accepted silently and produce a clamped box. -/
theorem C3_amended_zero_dims_fail
    (fx0 fy0 fx1 fy1 pw ph : ℚ) (iw ih : ℤ) (cid : ℕ)
    (h : pw = 0 ∨ ph = 0 ∨ iw = 0 ∨ ih = 0) :
    pdf_rect_to_yolo fx0 fy0 fx1 fy1 pw ph iw ih cid = none := by
  unfold pdf_rect_to_yolo
  by_cases h1 : pw = 0 ∨ ph = 0
  · rw [if_pos h1]
  · rw [if_neg h1]
    by_cases h2 : iw = 0 ∨ ih = 0
    · simp only [if_pos h2]
    · exfalso
      push_neg at h1 h2
      rcases h with h | h | h | h
      · exact h1.1 h
      · exact h1.2 h
      · exact h2.1 h
      · exact h2.2 h

/-- C3 amended witness: a zero page width fails. -/
theorem C3_amended_zero_dims_fail_witness :
    pdf_rect_to_yolo 100 700 200 720 0 792 1700 2200 7 = none :=
  C3_amended_zero_dims_fail 100 700 200 720 0 792 1700 2200 7 (Or.inl rfl)

theorem round6_int_div (k : ℤ) : round6 ((k : ℚ) / 1000000) = (k : ℚ) / 1000000 := by
  unfold round6
  rw [div_mul_cancel₀ _ (by norm_num : (1000000 : ℚ) ≠ 0), round_intCast]

theorem round6_rep6 {q : ℚ} (h : Rep6 q) : round6 q = q := by
  obtain ⟨k, rfl⟩ := h
  exact round6_int_div k

theorem rep6_one_sub {q : ℚ} (h : Rep6 q) : Rep6 (1 - q) := by
  obtain ⟨k, rfl⟩ := h
  exact ⟨1000000 - k, by push_cast; ring⟩

theorem flip_horizontal_encoded (bs : List Box) :
    flip_horizontal (bs.map box_to_line) = Except.ok (bs.map flip_box) := by
  induction bs with
  | nil => rfl
  | cons b rest ih =>
    simp only [List.map_cons, flip_horizontal, flip_line, box_to_line, pyFloat, ih, flip_box]

theorem rep6_round6 (q : ℚ) : Rep6 (round6 q) := ⟨round (q * 1000000), rfl⟩

theorem abs_round6_sub (q : ℚ) : |round6 q - q| ≤ 1/2000000 := by
  unfold round6
  have h := abs_sub_round (q * 1000000)
  rw [abs_sub_comm] at h
  have heq : (round (q * 1000000) : ℚ) / 1000000 - q =
      ((round (q * 1000000) : ℚ) - q * 1000000) / 1000000 := by ring
  rw [heq, abs_div, abs_of_pos (by norm_num : (0:ℚ) < 1000000)]
  calc |(round (q * 1000000) : ℚ) - q * 1000000| / 1000000
      ≤ (1/2) / 1000000 :=
        (div_le_div_iff_of_pos_right (by norm_num : (0:ℚ) < 1000000)).mpr h
    _ = 1/2000000 := by norm_num

/-- C5: flipping any box twice reproduces it within 1e-6 on all four numeric
fields; on a box read back from a persisted label line (fields exact at six
decimal places) a single flip maps cx to exactly 1 − cx and leaves cy, w, h
and the class token unchanged; and the flip culls nothing — it maps the box
list elementwise, preserving length and order. -/
theorem C5_flip_involution_and_no_cull :
    (∀ b : Box,
      |(flip_box (flip_box b)).cx - b.cx| ≤ 1/1000000 ∧
      |(flip_box (flip_box b)).cy - b.cy| ≤ 1/1000000 ∧
      |(flip_box (flip_box b)).w - b.w| ≤ 1/1000000 ∧
      |(flip_box (flip_box b)).h - b.h| ≤ 1/1000000) ∧
    (∀ b : Box, Rep6 b.cx → Rep6 b.cy → Rep6 b.w → Rep6 b.h →
      (flip_box b).cls = b.cls ∧ (flip_box b).cx = 1 - b.cx ∧
      (flip_box b).cy = b.cy ∧ (flip_box b).w = b.w ∧ (flip_box b).h = b.h) ∧
    (∀ bs : List Box,
      flip_horizontal (bs.map box_to_line) = Except.ok (bs.map flip_box) ∧
      (bs.map flip_box).length = bs.length) := by
  refine ⟨?_, ?_, ?_⟩
  · intro b
    have gcx : (flip_box (flip_box b)).cx = 1 - round6 (1 - b.cx) := by
      show round6 (1 - (flip_box b).cx) = _
      exact round6_rep6 (rep6_one_sub (rep6_round6 _))
    have gcy : (flip_box (flip_box b)).cy = round6 b.cy := by
      show round6 (flip_box b).cy = _
      exact round6_rep6 (rep6_round6 _)
    have gw : (flip_box (flip_box b)).w = round6 b.w := by
      show round6 (flip_box b).w = _
      exact round6_rep6 (rep6_round6 _)
    have gh : (flip_box (flip_box b)).h = round6 b.h := by
      show round6 (flip_box b).h = _
      exact round6_rep6 (rep6_round6 _)
    refine ⟨?_, ?_, ?_, ?_⟩
    · rw [gcx]
      have h := abs_round6_sub (1 - b.cx)
      have heq : 1 - round6 (1 - b.cx) - b.cx = -(round6 (1 - b.cx) - (1 - b.cx)) := by ring
      rw [heq, abs_neg]
      linarith
    · rw [gcy]
      have h := abs_round6_sub b.cy
      linarith [abs_round6_sub b.cy]
    · rw [gw]
      linarith [abs_round6_sub b.w]
    · rw [gh]
      linarith [abs_round6_sub b.h]
  · intro b hcx hcy hw hh
    exact ⟨rfl, round6_rep6 (rep6_one_sub hcx), round6_rep6 hcy,
      round6_rep6 hw, round6_rep6 hh⟩
  · intro bs
    exact ⟨flip_horizontal_encoded bs, List.length_map _ _⟩

/-- C5 witness: the single-flip facts at the concrete box (cx, cy, w, h) =
(1/4, 1/2, 1/8, 1/10). -/
theorem C5_flip_involution_and_no_cull_witness :
    (flip_box ⟨Tok.junk, 1/4, 1/2, 1/8, 1/10⟩).cx = 1 - 1/4 :=
  (C5_flip_involution_and_no_cull.2.1 ⟨Tok.junk, 1/4, 1/2, 1/8, 1/10⟩
    ⟨250000, by norm_num⟩ ⟨500000, by norm_num⟩
    ⟨125000, by norm_num⟩ ⟨100000, by norm_num⟩).2.1

/-- C7 counterexample: a 2-line label file whose first line has exactly 5
tokens with an unparseable numeric token.  The uncaught `ValueError` aborts
the whole call — the second (well-formed) line is never processed and no
boxes are produced — refuting "the failure is confined to that single line". -/
theorem C7_counterexample_parse_failure_aborts_file :
    flip_horizontal
      [[Tok.num 3, Tok.junk, Tok.num (1/2), Tok.num (1/10), Tok.num (1/10)],
       [Tok.num 1, Tok.num (1/5), Tok.num (1/5), Tok.num (1/10), Tok.num (1/10)]] =
      Except.error () := rfl

theorem flip_line_junk_error (c t1 t2 t3 t4 : Tok) (hj : Tok.junk ∈ [t1, t2, t3, t4]) :
    flip_line [c, t1, t2, t3, t4] = Except.error () := by
  cases t1 <;> cases t2 <;> cases t3 <;> cases t4 <;> simp_all [flip_line, pyFloat]

theorem flip_horizontal_error_of_mem {lines : List (List Tok)} {l : List Tok}
    (hmem : l ∈ lines) (herr : flip_line l = Except.error ()) :
    flip_horizontal lines = Except.error () := by
  induction lines with
  | nil => cases hmem
  | cons a rest ih =>
    rcases List.mem_cons.mp hmem with rfl | hmem'
    · simp only [flip_horizontal, herr]
    · match ha : flip_line a with
      | Except.error e => cases e; simp only [flip_horizontal, ha]
      | Except.ok none => simp only [flip_horizontal, ha, ih hmem']
      | Except.ok (some b) => simp only [flip_horizontal, ha, ih hmem']

/-- C7 (amended): when a 5-token line has a numeric token on which decimal
parsing fails, the resulting `ValueError` is not caught: the entire label-file
transform call fails and no remaining line of the file is processed (only a
wrong token count is tolerated line-locally). -/
theorem C7_amended_parse_failure_aborts_file (lines : List (List Tok))
    (c t1 t2 t3 t4 : Tok) (hmem : [c, t1, t2, t3, t4] ∈ lines)
    (hj : Tok.junk ∈ [t1, t2, t3, t4]) :
    flip_horizontal lines = Except.error () :=
  flip_horizontal_error_of_mem hmem (flip_line_junk_error c t1 t2 t3 t4 hj)

/-- C7 amended witness: a single-line file with an unparseable cx token fails. -/
theorem C7_amended_parse_failure_aborts_file_witness :
    flip_horizontal [[Tok.num 3, Tok.junk, Tok.num 1, Tok.num 1, Tok.num 1]] =
      Except.error () :=
  C7_amended_parse_failure_aborts_file _ (Tok.num 3) Tok.junk (Tok.num 1) (Tok.num 1)
    (Tok.num 1) (List.mem_singleton.mpr rfl) (by simp)

theorem round6_thousandth : round6 (1/1000) = 1/1000 := by
  unfold round6
  norm_num [round_eq]

theorem round6_999_thousandths : round6 (999/1000) = 999/1000 := by
  unfold round6
  norm_num [round_eq]

theorem le_round6_clamp001 (v : ℚ) :
    1/1000 ≤ round6 (max (1/1000) (min (999/1000) v)) := by
  have h := round6_mono (le_max_left (1/1000) (min (999/1000) v))
  rwa [round6_thousandth] at h

theorem round6_clamp001_le (v : ℚ) :
    round6 (max (1/1000) (min (999/1000) v)) ≤ 999/1000 := by
  have hle : max (1/1000) (min (999/1000) v) ≤ 999/1000 :=
    max_le (by norm_num) (min_le_left _ _)
  have h := round6_mono hle
  rwa [round6_999_thousandths] at h

theorem scan_fax_box_ok_some_bounds {w h : ℕ} {scale ajx ajy : ℚ} {px py : ℤ}
    {cls : Tok} {cx cy bw bh : ℚ} {b : Box}
    (hb : scan_fax_box w h scale ajx ajy px py cls cx cy bw bh = Except.ok (some b)) :
    (1/1000 ≤ b.cx ∧ b.cx ≤ 999/1000) ∧ (1/1000 ≤ b.cy ∧ b.cy ≤ 999/1000) ∧
    (1/1000 ≤ b.w ∧ b.w ≤ 999/1000) ∧ (1/1000 ≤ b.h ∧ b.h ≤ 999/1000) := by
  unfold scan_fax_box at hb
  split at hb
  · exact absurd hb (by simp)
  · simp only [] at hb
    split at hb
    · exact absurd hb (by simp)
    · split at hb
      · exact absurd hb (by simp)
      · simp only [Except.ok.injEq, Option.some.injEq] at hb
        subst hb
        exact ⟨⟨le_round6_clamp001 _, round6_clamp001_le _⟩,
          ⟨le_round6_clamp001 _, round6_clamp001_le _⟩,
          ⟨le_round6_clamp001 _, round6_clamp001_le _⟩,
          ⟨le_round6_clamp001 _, round6_clamp001_le _⟩⟩

theorem scan_fax_line_ok_some_bounds {w h : ℕ} {scale ajx ajy : ℚ} {px py : ℤ}
    {line : List Tok} {b : Box}
    (hb : scan_fax_line w h scale ajx ajy px py line = Except.ok (some b)) :
    (1/1000 ≤ b.cx ∧ b.cx ≤ 999/1000) ∧ (1/1000 ≤ b.cy ∧ b.cy ≤ 999/1000) ∧
    (1/1000 ≤ b.w ∧ b.w ≤ 999/1000) ∧ (1/1000 ≤ b.h ∧ b.h ≤ 999/1000) := by
  unfold scan_fax_line at hb
  split at hb
  · split at hb
    · exact scan_fax_box_ok_some_bounds hb
    · exact absurd hb (by simp)
  · exact absurd hb (by simp)

theorem scan_fax_lines_mem_bounds {w h : ℕ} {scale ajx ajy : ℚ} {px py : ℤ} :
    ∀ {lines : List (List Tok)} {bs : List Box},
      scan_fax_lines w h scale ajx ajy px py lines = Except.ok bs →
      ∀ b ∈ bs,
        (1/1000 ≤ b.cx ∧ b.cx ≤ 999/1000) ∧ (1/1000 ≤ b.cy ∧ b.cy ≤ 999/1000) ∧
        (1/1000 ≤ b.w ∧ b.w ≤ 999/1000) ∧ (1/1000 ≤ b.h ∧ b.h ≤ 999/1000) := by
  intro lines
  induction lines with
  | nil =>
    intro bs hbs b hb
    unfold scan_fax_lines at hbs
    simp only [Except.ok.injEq] at hbs
    subst hbs
    cases hb
  | cons line rest ih =>
    intro bs hbs b hb
    unfold scan_fax_lines at hbs
    split at hbs
    · exact absurd hbs (by simp)
    · exact ih hbs b hb
    · rename_i b' hline
      split at hbs
      · exact absurd hbs (by simp)
      · rename_i bs' hrest
        simp only [Except.ok.injEq] at hbs
        subst hbs
        rcases List.mem_cons.mp hb with rfl | hb'
        · exact scan_fax_line_ok_some_bounds hline
        · exact ih hrest b hb'

theorem resize_boxes_mem_bounds {w h : ℕ} {scale ajx ajy : ℚ}
    {lines : List (List Tok)} {r : ScanFaxResult}
    (hr : resize_scan_fax w h scale ajx ajy lines = Except.ok r) {b : Box}
    (hb : b ∈ r.boxes) :
    (1/1000 ≤ b.cx ∧ b.cx ≤ 999/1000) ∧ (1/1000 ≤ b.cy ∧ b.cy ≤ 999/1000) ∧
    (1/1000 ≤ b.w ∧ b.w ≤ 999/1000) ∧ (1/1000 ≤ b.h ∧ b.h ≤ 999/1000) := by
  unfold resize_scan_fax at hr
  simp only [] at hr
  split at hr
  · exact absurd hr (by simp)
  · rename_i bs hbs
    simp only [Except.ok.injEq] at hr
    subst hr
    exact scan_fax_lines_mem_bounds hbs b hb

/-- Concrete run of the scan/fax transform with identity parameters on a
single centred box, used to instantiate hypotheses of the invariant
theorems. -/
theorem resize_scan_fax_eval_identity :
    resize_scan_fax 1000 1000 1 1 1
        [[Tok.num 0, Tok.num (1/2), Tok.num (1/2), Tok.num (1/10), Tok.num (1/10)]] =
      Except.ok ⟨1000, 1000, 1000, 1000, 0, 0, [⟨Tok.num 0, 1/2, 1/2, 1/10, 1/10⟩]⟩ := by
  unfold resize_scan_fax scan_fax_lines scan_fax_line pyFloat scan_fax_box
    scan_fax_raw_c scan_fax_raw_size round6
  norm_num [pyInt, round_eq]
  rfl

/-- C10: every box emitted by the scan/fax transform has all four numeric
fields in [0.001, 0.999]; in particular no emitted box has width or height
below 0.001 and no emitted center sits exactly on the canvas border. -/
theorem C10_scan_fax_output_in_range
    (w h : ℕ) (scale ajx ajy : ℚ) (lines : List (List Tok)) (r : ScanFaxResult)
    (hr : resize_scan_fax w h scale ajx ajy lines = Except.ok r)
    (b : Box) (hb : b ∈ r.boxes) :
    (1/1000 ≤ b.cx ∧ b.cx ≤ 999/1000) ∧ (1/1000 ≤ b.cy ∧ b.cy ≤ 999/1000) ∧
    (1/1000 ≤ b.w ∧ b.w ≤ 999/1000) ∧ (1/1000 ≤ b.h ∧ b.h ≤ 999/1000) :=
  resize_boxes_mem_bounds hr hb

/-- C10 witness: the range facts at a concrete identity-parameter run. -/
theorem C10_scan_fax_output_in_range_witness :
    (1/1000 ≤ (1:ℚ)/2 ∧ (1:ℚ)/2 ≤ 999/1000) ∧ (1/1000 ≤ (1:ℚ)/2 ∧ (1:ℚ)/2 ≤ 999/1000) ∧
    (1/1000 ≤ (1:ℚ)/10 ∧ (1:ℚ)/10 ≤ 999/1000) ∧
    (1/1000 ≤ (1:ℚ)/10 ∧ (1:ℚ)/10 ≤ 999/1000) :=
  C10_scan_fax_output_in_range 1000 1000 1 1 1
    [[Tok.num 0, Tok.num (1/2), Tok.num (1/2), Tok.num (1/10), Tok.num (1/10)]]
    ⟨1000, 1000, 1000, 1000, 0, 0, [⟨Tok.num 0, 1/2, 1/2, 1/10, 1/10⟩]⟩
    resize_scan_fax_eval_identity
    ⟨Tok.num 0, 1/2, 1/2, 1/10, 1/10⟩ (List.mem_singleton.mpr rfl)

/-- C6 counterexample: canvas 1000×1000, scale 13/10, no aspect jitter, box
(cx, cy, w, h) = (1/13, 1/2, 1/13, 1/10).  Its transformed *pre-clamp* right
edge sits at 0 < 0.02 (second conjunct), so under the claimed pre-clamp
culling rule the box must be dropped — yet the code keeps it: its center
clamps to 0.001 and the *clamped* extent crosses the 0.02 threshold, so the
output contains the box.  This refutes "the culling test is evaluated using
the pre-clamp edge positions". -/
theorem C6_counterexample_off_canvas_box_retained :
    resize_scan_fax 1000 1000 (13/10) 1 1
        [[Tok.num 9, Tok.num (1/13), Tok.num (1/2), Tok.num (1/13), Tok.num (1/10)]] =
      Except.ok ⟨1000, 1000, 1300, 1300, -150, -150,
        [⟨Tok.num 9, 1/1000, 1/2, 1/10, 13/100⟩]⟩ ∧
    scan_fax_raw_c 1000 (13/10) 1 (-150) (1/13) +
        scan_fax_raw_size 1000 (13/10) 1 (1/13) / 2 < 2/100 := by
  constructor
  · unfold resize_scan_fax scan_fax_lines scan_fax_line pyFloat scan_fax_box
      scan_fax_raw_c scan_fax_raw_size round6
    norm_num [pyInt, round_eq, (by decide : ((-300 : ℤ)).fdiv 2 = -150)]
    rfl
  · unfold scan_fax_raw_c scan_fax_raw_size
    norm_num

/-- C6 (amended): the off-canvas culling test is evaluated on the *clamped*
center/size values, not the pre-clamp edge positions: the per-box result of
the scan/fax transform depends only on the clamped transformed values, so two
boxes with identical clamped transforms are culled or kept identically, and a
box whose center clamps into range is retained whenever its clamped extent
crosses the 0.02/0.98 window — even if its true edges are almost entirely
off-canvas. -/
theorem C6_amended_cull_uses_clamped_values
    (w h : ℕ) (scale ajx ajy : ℚ) (px py : ℤ) (cls : Tok)
    (cx cy bw bh cx' cy' bw' bh' : ℚ)
    (hcx : max (1/1000) (min (999/1000) (scan_fax_raw_c w scale ajx px cx)) =
      max (1/1000) (min (999/1000) (scan_fax_raw_c w scale ajx px cx')))
    (hcy : max (1/1000) (min (999/1000) (scan_fax_raw_c h scale ajy py cy)) =
      max (1/1000) (min (999/1000) (scan_fax_raw_c h scale ajy py cy')))
    (hbw : max (1/1000) (min (999/1000) (scan_fax_raw_size w scale ajx bw)) =
      max (1/1000) (min (999/1000) (scan_fax_raw_size w scale ajx bw')))
    (hbh : max (1/1000) (min (999/1000) (scan_fax_raw_size h scale ajy bh)) =
      max (1/1000) (min (999/1000) (scan_fax_raw_size h scale ajy bh'))) :
    scan_fax_box w h scale ajx ajy px py cls cx cy bw bh =
      scan_fax_box w h scale ajx ajy px py cls cx' cy' bw' bh' := by
  unfold scan_fax_box
  rw [hcx, hcy, hbw, hbh]

/-- C6 amended witness: a box at raw center −5 and one at raw center −6 (both
entirely off-canvas on the left, clamping to the same values) get the same
per-box result. -/
theorem C6_amended_cull_uses_clamped_values_witness :
    scan_fax_box 1000 1000 1 1 1 0 0 Tok.junk (-5) (1/2) (1/10) (1/10) =
      scan_fax_box 1000 1000 1 1 1 0 0 Tok.junk (-6) (1/2) (1/10) (1/10) :=
  C6_amended_cull_uses_clamped_values 1000 1000 1 1 1 0 0 Tok.junk
    (-5) (1/2) (1/10) (1/10) (-6) (1/2) (1/10) (1/10)
    (by unfold scan_fax_raw_c; norm_num) rfl rfl rfl

/-- C8 counterexample: origW = origH = 100, scale = 1, aspectJitterX = 0.959,
aspectJitterY = 1.  The code computes `new_w = max(64, int(100 * 0.959)) = 95`
(truncation), while the claimed formula `max(64, round(100 * 0.959))` gives
96 — so the resized width does not equal the claimed rounded value. -/
theorem C8_counterexample_truncation_not_rounding :
    resize_scan_fax 100 100 1 (959/1000) 1 [] =
      Except.ok ⟨100, 100, 95, 100, 2, 0, []⟩ ∧
    max (64 : ℤ) (round ((100 : ℚ) * 1 * (959/1000))) = 96 := by
  constructor
  · unfold resize_scan_fax scan_fax_lines
    norm_num [pyInt]
    decide
  · norm_num [round_eq]

/-- C8 (amended): the resized canvas dimensions are
`new_w = max(64, int(origW * scale * aspectJitterX))` — Python `int()`
truncation toward zero, not rounding — and analogously for the height; the
final output canvas has exactly the original dimensions (origW, origH). -/
theorem C8_amended_truncated_dims_and_fixed_canvas
    (w h : ℕ) (scale ajx ajy : ℚ) (lines : List (List Tok)) (r : ScanFaxResult)
    (hr : resize_scan_fax w h scale ajx ajy lines = Except.ok r) :
    r.new_w = max 64 (pyInt ((w : ℚ) * scale * ajx)) ∧
    r.new_h = max 64 (pyInt ((h : ℚ) * scale * ajy)) ∧
    r.out_w = w ∧ r.out_h = h := by
  unfold resize_scan_fax at hr
  simp only [] at hr
  split at hr
  · exact absurd hr (by simp)
  · simp only [Except.ok.injEq] at hr
    subst hr
    exact ⟨rfl, rfl, rfl, rfl⟩

/-- C8 amended witness: the dimension facts at a concrete 64×64 identity
run. -/
theorem C8_amended_truncated_dims_and_fixed_canvas_witness :
    (ScanFaxResult.mk 64 64 64 64 0 0 []).new_w = max 64 (pyInt ((64 : ℕ) * (1:ℚ) * 1)) ∧
    (ScanFaxResult.mk 64 64 64 64 0 0 []).new_h = max 64 (pyInt ((64 : ℕ) * (1:ℚ) * 1)) ∧
    (ScanFaxResult.mk 64 64 64 64 0 0 []).out_w = 64 ∧
    (ScanFaxResult.mk 64 64 64 64 0 0 []).out_h = 64 :=
  C8_amended_truncated_dims_and_fixed_canvas 64 64 1 1 1 [] ⟨64, 64, 64, 64, 0, 0, []⟩
    (by unfold resize_scan_fax scan_fax_lines
        norm_num [pyInt])

/-- C4 counterexample: a zero-width field rectangle (x0 = x1 = 100) on a
Letter page.  The label writer emits its line with w = 0 — the degenerate box
is written to the persisted label output, not dropped — refuting "every box
kept in the output has w > 0 and h > 0". -/
theorem C4_counterexample_zero_width_box_written :
    render_label_lines 612 792 1700 2200 [⟨"text_field", 2, 100, 700, 100, 720⟩] =
      Except.ok [(2, 163399/1000000, 896465/1000000, 0, 25253/1000000)] := by
  unfold render_label_lines render_label_line
  simp only [String.reduceEq, reduceIte]
  unfold pdf_rect_to_yolo clamp round6
  norm_num [round_eq, abs, render_label_lines]

theorem render_label_lines_length (pw ph : ℚ) (iw ih : ℤ) :
    ∀ {fields : List Field} {ls : List (ℕ × ℚ × ℚ × ℚ × ℚ)},
      render_label_lines pw ph iw ih fields = Except.ok ls → ls.length = fields.length := by
  intro fields
  induction fields with
  | nil =>
    intro ls hls
    unfold render_label_lines at hls
    simp only [Except.ok.injEq] at hls
    subst hls
    rfl
  | cons f rest ih =>
    intro ls hls
    unfold render_label_lines at hls
    split at hls
    · exact absurd hls (by simp)
    · split at hls
      · exact absurd hls (by simp)
      · rename_i lines hrest
        simp only [Except.ok.injEq] at hls
        subst hls
        simp [ih hrest]

/-- C4 (amended): no stage drops a box for degenerate size.  The collect-stage
label writer emits exactly one label line per field — degenerate (zero-width
or zero-height) boxes included, written with w = 0 / h = 0 — and the scan/fax
transform clamps width and height up to at least 0.001 and keeps the box
(boxes are dropped only by the off-canvas visibility cull). -/
theorem C4_amended_degenerate_boxes_kept_not_dropped :
    (∀ (pw ph : ℚ) (iw ih : ℤ) (fields : List Field)
        (ls : List (ℕ × ℚ × ℚ × ℚ × ℚ)),
        render_label_lines pw ph iw ih fields = Except.ok ls →
        ls.length = fields.length) ∧
    (∀ (w h : ℕ) (scale ajx ajy : ℚ) (lines : List (List Tok)) (r : ScanFaxResult),
        resize_scan_fax w h scale ajx ajy lines = Except.ok r →
        ∀ b ∈ r.boxes, 1/1000 ≤ b.w ∧ 1/1000 ≤ b.h) := by
  constructor
  · intro pw ph iw ih fields ls hls
    exact render_label_lines_length pw ph iw ih hls
  · intro w h scale ajx ajy lines r hr b hb
    exact ⟨(resize_boxes_mem_bounds hr hb).2.2.1.1, (resize_boxes_mem_bounds hr hb).2.2.2.1⟩

/-- C4 amended witness: the zero-width field still yields exactly one label
line, and the identity scan/fax run keeps its box with w, h ≥ 0.001. -/
theorem C4_amended_degenerate_boxes_kept_not_dropped_witness :
    [((2:ℕ), (163399:ℚ)/1000000, (896465:ℚ)/1000000, (0:ℚ), (25253:ℚ)/1000000)].length =
      [(⟨"text_field", 2, 100, 700, 100, 720⟩ : Field)].length ∧
    ((1:ℚ)/1000 ≤ 1/10 ∧ (1:ℚ)/1000 ≤ 1/10) :=
  ⟨C4_amended_degenerate_boxes_kept_not_dropped.1 612 792 1700 2200
      [⟨"text_field", 2, 100, 700, 100, 720⟩]
      [(2, 163399/1000000, 896465/1000000, 0, 25253/1000000)]
      (by unfold render_label_lines render_label_line
          simp only [String.reduceEq, reduceIte]
          unfold pdf_rect_to_yolo clamp round6
          norm_num [round_eq, abs, render_label_lines]),
    C4_amended_degenerate_boxes_kept_not_dropped.2 1000 1000 1 1 1
      [[Tok.num 0, Tok.num (1/2), Tok.num (1/2), Tok.num (1/10), Tok.num (1/10)]]
      ⟨1000, 1000, 1000, 1000, 0, 0, [⟨Tok.num 0, 1/2, 1/2, 1/10, 1/10⟩]⟩
      resize_scan_fax_eval_identity
      ⟨Tok.num 0, 1/2, 1/2, 1/10, 1/10⟩ (List.mem_singleton.mpr rfl)⟩

/-- C9: for a rectangle inside the page bounds [0, pageW] × [0, pageH] and a
non-negative pad factor, every coordinate of the padded rectangle stays
inside the bounds. -/
theorem C9_pad_expander_stays_in_bounds
    (page_width page_height pad_factor x0 y0 x1 y1 : ℚ)
    (hx0 : 0 ≤ x0) (hy0 : 0 ≤ y0) (hx : x0 ≤ x1) (hy : y0 ≤ y1)
    (hx1 : x1 ≤ page_width) (hy1 : y1 ≤ page_height) (hpad : 0 ≤ pad_factor) :
    (0 ≤ (pad_checkbox page_width page_height pad_factor x0 y0 x1 y1).1 ∧
      (pad_checkbox page_width page_height pad_factor x0 y0 x1 y1).1 ≤ page_width) ∧
    (0 ≤ (pad_checkbox page_width page_height pad_factor x0 y0 x1 y1).2.1 ∧
      (pad_checkbox page_width page_height pad_factor x0 y0 x1 y1).2.1 ≤ page_height) ∧
    (0 ≤ (pad_checkbox page_width page_height pad_factor x0 y0 x1 y1).2.2.1 ∧
      (pad_checkbox page_width page_height pad_factor x0 y0 x1 y1).2.2.1 ≤ page_width) ∧
    (0 ≤ (pad_checkbox page_width page_height pad_factor x0 y0 x1 y1).2.2.2 ∧
      (pad_checkbox page_width page_height pad_factor x0 y0 x1 y1).2.2.2 ≤ page_height) := by
  have hpx : 0 ≤ (x1 - x0) * pad_factor := mul_nonneg (by linarith) hpad
  have hpy : 0 ≤ (y1 - y0) * pad_factor := mul_nonneg (by linarith) hpad
  unfold pad_checkbox
  refine ⟨⟨le_max_left _ _, max_le (by linarith) (by linarith)⟩,
    ⟨le_max_left _ _, max_le (by linarith) (by linarith)⟩,
    ⟨le_min (by linarith) (by linarith), min_le_left _ _⟩,
    ⟨le_min (by linarith) (by linarith), min_le_left _ _⟩⟩

/-- C9 witness: padding the rectangle (10, 20, 20, 30) with factor 1 on a
612 × 792 page stays inside the page. -/
theorem C9_pad_expander_stays_in_bounds_witness :
    (0 ≤ (pad_checkbox 612 792 1 10 20 20 30).1 ∧
      (pad_checkbox 612 792 1 10 20 20 30).1 ≤ 612) ∧
    (0 ≤ (pad_checkbox 612 792 1 10 20 20 30).2.1 ∧
      (pad_checkbox 612 792 1 10 20 20 30).2.1 ≤ 792) ∧
    (0 ≤ (pad_checkbox 612 792 1 10 20 20 30).2.2.1 ∧
      (pad_checkbox 612 792 1 10 20 20 30).2.2.1 ≤ 612) ∧
    (0 ≤ (pad_checkbox 612 792 1 10 20 20 30).2.2.2 ∧
      (pad_checkbox 612 792 1 10 20 20 30).2.2.2 ≤ 792) :=
  C9_pad_expander_stays_in_bounds 612 792 1 10 20 20 30
    (by norm_num) (by norm_num) (by norm_num) (by norm_num)
    (by norm_num) (by norm_num) (by norm_num)

end FormDex
